import Mathlib

/-!
Shallow embedding of the simple-softphone core (src/services/sipService.ts:
`SIPService` and `StorageService`, plus the `useCall` hook's `makeCall` from
src/hooks/useCall.ts) and proofs about the behaviour of its operations.

Conventions of the embedding:
* `localStorage` is modelled by the `Storage` structure: the parsed account
  collection, the active-account id key, and a `writes` counter that is bumped
  on every `setItem`/`removeItem`, so that "nothing was written to the
  persistence substrate" is expressible.
* `Date.now()` and the random component of `generateId` are injected as
  explicit parameters (`now`, `rand`), since they are the only sources of
  nondeterminism in the storage layer.
* The JsSIP engine is a black box; the facade holds at most one `Engine`
  record carrying the observable flags the code reads (`isRegistered()`,
  `isConnected()`) and the account id captured by `setupEventHandlers`.
  Commands the facade issues to the engine are collected in an `EngineCmd`
  list so that "the previous engine was (not) stopped" is observable.
* TypeScript `throw`/`catch` becomes `Except`: `buildWebSocketUrl` returns
  `Except String String`, and `registerAccount` (whose `try`/`catch` swallows
  every exception) is a total function.
-/

namespace Softphone

/-- Transport kinds, from the `transport` union type in src/types/sip.ts. -/
inductive Transport
  | UDP | TCP | TLS | WS | WSS
deriving DecidableEq, Repr

/-- Registration status, from `SIPRegistrationStatus` in sipService.ts. -/
inductive RegStatus
  | registered | unregistered | connecting | failed
deriving DecidableEq, Repr

/-- A SIP account record, from the `SIPAccount` interface in src/types/sip.ts.
Timestamps are `Nat` milliseconds. -/
structure SIPAccount where
  id : String
  name : String
  server : String
  userId : String
  password : String
  port : Nat
  transport : Transport
  websocketPath : Option String
  displayName : Option String
  isActive : Bool
  registrationStatus : RegStatus
  createdAt : Nat
  updatedAt : Nat
deriving DecidableEq, Repr

/-- The argument type of `StorageService.addSIPAccount`:
`Omit<SIPAccount, "id" | "createdAt" | "updatedAt">` — note that it still
carries `isActive` and `registrationStatus`. -/
structure SIPAccountDraft where
  name : String
  server : String
  userId : String
  password : String
  port : Nat
  transport : Transport
  websocketPath : Option String
  displayName : Option String
  isActive : Bool
  registrationStatus : RegStatus
deriving DecidableEq, Repr

/-- The argument type of `StorageService.updateSIPAccount`:
`Partial<SIPAccount>`.  Every field of `SIPAccount` may be present or absent;
a present field overwrites the stored one on object spread.  (`id` is a field
of `SIPAccount`, hence a legal key of the partial.) -/
structure AccountPatch where
  id : Option String := none
  name : Option String := none
  server : Option String := none
  userId : Option String := none
  password : Option String := none
  port : Option Nat := none
  transport : Option Transport := none
  websocketPath : Option (Option String) := none
  displayName : Option (Option String) := none
  isActive : Option Bool := none
  registrationStatus : Option RegStatus := none
deriving DecidableEq, Repr

/-- Merge `{ ...acc, ...updates, updatedAt: new Date() }` performed by
`StorageService.updateSIPAccount`.  A key present in `updates` overwrites the
stored field; `updatedAt` is always refreshed. -/
def applyPatch (acc : SIPAccount) (p : AccountPatch) (now : Nat) : SIPAccount :=
  { id := p.id.getD acc.id
    name := p.name.getD acc.name
    server := p.server.getD acc.server
    userId := p.userId.getD acc.userId
    password := p.password.getD acc.password
    port := p.port.getD acc.port
    transport := p.transport.getD acc.transport
    websocketPath := p.websocketPath.getD acc.websocketPath
    displayName := p.displayName.getD acc.displayName
    isActive := p.isActive.getD acc.isActive
    registrationStatus := p.registrationStatus.getD acc.registrationStatus
    createdAt := acc.createdAt
    updatedAt := now }

/-- The browser `localStorage` as seen through `StorageService`: the parsed
account collection (key `softphone_sip_accounts`), the active-account pointer
(key `softphone_active_account_id`), and a counter of write operations
(`setItem`/`removeItem` calls) so frame conditions are observable. -/
structure Storage where
  accounts : List SIPAccount
  activeId : Option String
  writes : Nat
deriving DecidableEq, Repr

/-- Model of `StorageService.getSIPAccounts` (modulo serialization, which the model
keeps parsed). -/
def getSIPAccounts (st : Storage) : List SIPAccount := st.accounts

/-- Model of `StorageService.saveSIPAccounts`: rewrites the whole collection
(one `setItem`). -/
def saveSIPAccounts (st : Storage) (accounts : List SIPAccount) : Storage :=
  { st with accounts := accounts, writes := st.writes + 1 }

/-- Model of `StorageService.getActiveAccountId`. -/
def getActiveAccountId (st : Storage) : Option String := st.activeId

/-- Model of `StorageService.setActiveAccountId`: `setItem` when an id is given,
`removeItem` when `null`. -/
def setActiveAccountId (st : Storage) (accountId : Option String) : Storage :=
  { st with activeId := accountId, writes := st.writes + 1 }

/-- Model of `StorageService.generateId`:
`"sip_account_" + Date.now() + "_" + <random base-36 string>`. -/
def generateId (now : Nat) (rand : String) : String :=
  "sip_account_" ++ toString now ++ "_" ++ rand

/-- Model of `StorageService.addSIPAccount`: spreads the draft, assigns the generated
id and both timestamps, appends, persists and returns the new record.  (The
draft's `registrationStatus` and `isActive` are spread through unchanged.) -/
def addSIPAccount (st : Storage) (draft : SIPAccountDraft) (now : Nat)
    (rand : String) : SIPAccount × Storage :=
  let newAccount : SIPAccount :=
    { id := generateId now rand
      name := draft.name
      server := draft.server
      userId := draft.userId
      password := draft.password
      port := draft.port
      transport := draft.transport
      websocketPath := draft.websocketPath
      displayName := draft.displayName
      isActive := draft.isActive
      registrationStatus := draft.registrationStatus
      createdAt := now
      updatedAt := now }
  (newAccount, saveSIPAccounts st (st.accounts ++ [newAccount]))

/-- Replace the first record whose id matches, as
`findIndex` + `accounts[accountIndex] = updatedAccount` does; returns the
updated record (`none` when no record matches) and the rewritten list. -/
def updateInList (targetId : String) (p : AccountPatch) (now : Nat) :
    List SIPAccount → Option SIPAccount × List SIPAccount
  | [] => (none, [])
  | acc :: rest =>
    if acc.id = targetId then
      (some (applyPatch acc p now), applyPatch acc p now :: rest)
    else
      ((updateInList targetId p now rest).1, acc :: (updateInList targetId p now rest).2)

/-- Model of `StorageService.updateSIPAccount`: find by id; absent ⇒ `null`, nothing
persisted; present ⇒ merge, refresh `updatedAt`, persist, return the record. -/
def updateSIPAccount (st : Storage) (targetId : String) (p : AccountPatch)
    (now : Nat) : Option SIPAccount × Storage :=
  match updateInList targetId p now st.accounts with
  | (none, _) => (none, st)
  | (some updated, accounts') => (some updated, saveSIPAccounts st accounts')

/-- Model of `StorageService.deleteSIPAccount`: filter out the id; when nothing was
removed return `false` without persisting; otherwise persist, clear the
active-account pointer if it referenced the deleted id, and return `true`. -/
def deleteSIPAccount (st : Storage) (targetId : String) : Bool × Storage :=
  let filtered := st.accounts.filter (fun acc => acc.id ≠ targetId)
  if filtered.length = st.accounts.length then
    (false, st)
  else
    let st1 := saveSIPAccounts st filtered
    let st2 :=
      if getActiveAccountId st1 = some targetId then
        setActiveAccountId st1 none
      else st1
    (true, st2)

/-- The registration status carried by the first record with the given id in
a list of accounts (`none` when no such record exists). -/
def statusInList : List SIPAccount → String → Option RegStatus
  | [], _ => none
  | acc :: rest, accountId =>
    if acc.id = accountId then some acc.registrationStatus
    else statusInList rest accountId

/-- The registration status recorded in storage for a given account id
(`none` when no such record exists). -/
def statusOf (st : Storage) (accountId : String) : Option RegStatus :=
  statusInList st.accounts accountId

/-! ### The SIP Client Facade (`SIPService`) -/

/-- The observable face of one JsSIP `UA` instance: the flags the facade reads
(`isRegistered()`, `isConnected()`), the account id captured by
`setupEventHandlers` (`const accountId = this.currentAccount.id`), and a
token distinguishing instances. -/
structure Engine where
  boundId : String
  registered : Bool
  connected : Bool
  token : Nat
deriving DecidableEq, Repr

/-- Commands the facade issues to the engine (`new JsSIP.UA(...)`,
`ua.start()`, `ua.stop()`, `ua.unregister()`). -/
inductive EngineCmd
  | construct | start | stop | unregisterReq
deriving DecidableEq, Repr

/-- The mutable fields of the `SIPService` singleton, together with the
storage it writes through and a counter for fresh engine tokens. -/
structure FacadeState where
  userAgent : Option Engine
  currentAccount : Option SIPAccount
  isRegistering : Bool
  storage : Storage
  nextToken : Nat
deriving DecidableEq, Repr

/-- Model of `SIPService.isRegistered`: `this.userAgent?.isRegistered() || false`. -/
def engineIsRegistered (st : FacadeState) : Bool :=
  match st.userAgent with
  | some e => e.registered
  | none => false

/-- Model of `SIPService.isConnected`: `this.userAgent?.isConnected() || false`. -/
def engineIsConnected (st : FacadeState) : Bool :=
  match st.userAgent with
  | some e => e.connected
  | none => false

/-- Test `this.currentAccount?.id === account.id`. -/
def currentIdIs (st : FacadeState) (accountId : String) : Bool :=
  match st.currentAccount with
  | some c => c.id == accountId
  | none => false

/-- The partial update `{ registrationStatus: status }` that
`SIPService.updateAccountStatus` passes to `updateSIPAccount`. -/
def statusPatch (status : RegStatus) : AccountPatch :=
  { registrationStatus := some status }

/-- Model of `SIPService.updateAccountStatus`: write the status through to storage
(the `registrationStatusChanged` emission carries no state). -/
def updateAccountStatusF (st : FacadeState) (accountId : String)
    (status : RegStatus) (now : Nat) : FacadeState :=
  { st with storage := (updateSIPAccount st.storage accountId (statusPatch status) now).2 }

/-- Model of `SIPService.disconnect`: stop and drop the engine if any, clear the
current account.  No storage write. -/
def disconnectF (st : FacadeState) : FacadeState × List EngineCmd :=
  match st.userAgent with
  | some _ => ({ st with userAgent := none, currentAccount := none }, [EngineCmd.stop])
  | none => ({ st with currentAccount := none }, [])

/-- Model of `SIPService.unregister`: only when both an engine and a current account
exist, optimistically mark the account unregistered and ask the engine to
unregister. -/
def unregisterF (st : FacadeState) (now : Nat) : FacadeState × List EngineCmd :=
  match st.userAgent, st.currentAccount with
  | some _, some c =>
    (updateAccountStatusF st c.id RegStatus.unregistered now, [EngineCmd.unregisterReq])
  | _, _ => (st, [])

/-- Render a transport kind the way the thrown message interpolates it. -/
def transportLabel : Transport → String
  | .UDP => "UDP"
  | .TCP => "TCP"
  | .TLS => "TLS"
  | .WS => "WS"
  | .WSS => "WSS"

/-- Model of `SIPService.buildWebSocketUrl`: throws (`Except.error`) on any transport
other than WS/WSS; otherwise assembles `protocol://server[:port]path`, where
the port is omitted only on the scheme-standard port (443 for wss, 80 for
ws) and the path falls back to `"/ws"` when `websocketPath` is absent or
empty (JavaScript `||` treats `""` as falsy). -/
def buildWebSocketUrl (account : SIPAccount) : Except String String :=
  if account.transport ≠ Transport.WS ∧ account.transport ≠ Transport.WSS then
    Except.error ("Invalid transport for WebSocket: " ++ transportLabel account.transport
      ++ ". Use WS or WSS.")
  else
    let protocol := if account.transport = Transport.WSS then "wss" else "ws"
    let port := account.port
    let portString :=
      if (protocol = "wss" ∧ port ≠ 443) ∨ (protocol = "ws" ∧ port ≠ 80) then
        ":" ++ toString port
      else ""
    let wsPath :=
      match account.websocketPath with
      | some p => if p = "" then "/ws" else p
      | none => "/ws"
    Except.ok (protocol ++ "://" ++ account.server ++ portString ++ wsPath)

/-- Result of one `registerAccount` call: the returned boolean, the facade
state after the call (the `finally` clause has reset `isRegistering`), and
the engine commands issued during the call. -/
structure RegisterResult where
  returned : Bool
  state : FacadeState
  cmds : List EngineCmd
deriving DecidableEq, Repr

/-- The first statement of `registerAccount`'s `try` block:
`if (this.currentAccount && this.currentAccount.id !== account.id) await this.disconnect()`. -/
def registerTeardown (st : FacadeState) (account : SIPAccount) :
    FacadeState × List EngineCmd :=
  match st.currentAccount with
  | some c => if c.id ≠ account.id then disconnectF st else (st, [])
  | none => (st, [])

/-- Model of `SIPService.registerAccount`. In order: the in-flight guard returns
`false`; the same-account-already-registered guard returns `true`; otherwise
the `try` block tears down the engine only for a *different* account id,
marks the account `connecting`, builds the WebSocket URL (whose throw the
`catch` turns into a `failed` status and `false`), then constructs and
starts a fresh engine, records it and the account, and returns `true`.
The `finally` clause has reset `isRegistering` on every path. -/
def registerAccount (st : FacadeState) (account : SIPAccount) (now : Nat) :
    RegisterResult :=
  if st.isRegistering then
    { returned := false, state := st, cmds := [] }
  else if currentIdIs st account.id && engineIsRegistered st then
    { returned := true, state := st, cmds := [] }
  else
    let st1 := (registerTeardown st account).1
    let cmds1 := (registerTeardown st account).2
    let st2 := updateAccountStatusF st1 account.id RegStatus.connecting now
    match buildWebSocketUrl account with
    | Except.error _ =>
      { returned := false
        state := updateAccountStatusF st2 account.id RegStatus.failed now
        cmds := cmds1 }
    | Except.ok _ =>
      let engine : Engine :=
        { boundId := account.id, registered := false, connected := false
          token := st.nextToken }
      { returned := true
        state := { st2 with
          userAgent := some engine
          currentAccount := some account
          nextToken := st.nextToken + 1 }
        cmds := cmds1 ++ [EngineCmd.construct, EngineCmd.start] }

/-- The engine events `setupEventHandlers` subscribes to. -/
inductive FacadeEvent
  | registeredEv | unregisteredEv | registrationFailedEv
  | connectedEv | disconnectedEv | transportErrorEv
deriving DecidableEq, Repr

/-- The handlers installed by `SIPService.setupEventHandlers`.  Handlers only
exist on a live engine.  `registered` / `unregistered` / `registrationFailed`
use the account id captured at setup time (`boundId`); `disconnected` and
`transportError` read `this.currentAccount` at event time.  The engine's own
registered/connected flags evolve as JsSIP reports. -/
def handleEvent (st : FacadeState) (ev : FacadeEvent) (now : Nat) : FacadeState :=
  match st.userAgent with
  | none => st
  | some e =>
    match ev with
    | .registeredEv =>
      updateAccountStatusF { st with userAgent := some { e with registered := true } }
        e.boundId RegStatus.registered now
    | .unregisteredEv =>
      updateAccountStatusF { st with userAgent := some { e with registered := false } }
        e.boundId RegStatus.unregistered now
    | .registrationFailedEv =>
      updateAccountStatusF { st with userAgent := some { e with registered := false } }
        e.boundId RegStatus.failed now
    | .connectedEv =>
      { st with userAgent := some { e with connected := true } }
    | .disconnectedEv =>
      let st1 := { st with userAgent := some { e with connected := false, registered := false } }
      match st1.currentAccount with
      | some c => updateAccountStatusF st1 c.id RegStatus.unregistered now
      | none => st1
    | .transportErrorEv =>
      match st.currentAccount with
      | some c => updateAccountStatusF st c.id RegStatus.failed now
      | none => st

/-- One atomic interaction with the facade: a public command or an engine
event. -/
inductive FacadeAction
  | actRegister (account : SIPAccount)
  | actUnregister
  | actDisconnect
  | actEvent (ev : FacadeEvent)

/-- The state reached after one facade action. -/
def stepF (st : FacadeState) (act : FacadeAction) (now : Nat) : FacadeState :=
  match act with
  | .actRegister account => (registerAccount st account now).state
  | .actUnregister => (unregisterF st now).1
  | .actDisconnect => (disconnectF st).1
  | .actEvent ev => handleEvent st ev now

/-- The registration-status transition edges the specification allows:
unregistered→connecting, connecting→registered, connecting→failed,
registered→unregistered, and any→unregistered. -/
def specAllowedEdge (s t : RegStatus) : Prop :=
  (s = RegStatus.unregistered ∧ t = RegStatus.connecting) ∨
  (s = RegStatus.connecting ∧ t = RegStatus.registered) ∨
  (s = RegStatus.connecting ∧ t = RegStatus.failed) ∨
  t = RegStatus.unregistered

instance (s t : RegStatus) : Decidable (specAllowedEdge s t) := by
  unfold specAllowedEdge; infer_instance

/-- The statuses each action can write to storage (regardless of the previous
status of the record): `registerAccount` writes `connecting` and, on a caught
configuration error, `failed`; `unregister` writes `unregistered`;
`disconnect` writes nothing; each event handler writes the status hard-coded
in it. -/
def stepTargets (act : FacadeAction) : List RegStatus :=
  match act with
  | .actRegister _ => [RegStatus.connecting, RegStatus.failed]
  | .actUnregister => [RegStatus.unregistered]
  | .actDisconnect => []
  | .actEvent .registeredEv => [RegStatus.registered]
  | .actEvent .unregisteredEv => [RegStatus.unregistered]
  | .actEvent .registrationFailedEv => [RegStatus.failed]
  | .actEvent .connectedEv => []
  | .actEvent .disconnectedEv => [RegStatus.unregistered]
  | .actEvent .transportErrorEv => [RegStatus.failed]

/-! ### `SIPService.makeCall` and the `useCall` hook -/

/-- Media constraints `{ audio: boolean, video: boolean }`. -/
structure MediaConstraints where
  audio : Bool
  video : Bool
deriving DecidableEq, Repr

/-- Caller-supplied call options: only the field the facade's default also
sets matters for the merge. -/
structure CallOptions where
  mediaConstraints : Option MediaConstraints := none
deriving DecidableEq, Repr

/-- The options object actually handed to `ua.call`. -/
structure ResolvedCallOptions where
  mediaConstraints : MediaConstraints
deriving DecidableEq, Repr

/-- Merge `{ mediaConstraints: { audio: true, video: false }, ...options }`:
the default is audio-only; a caller-supplied `mediaConstraints` key
overwrites it wholesale (object spread). -/
def resolveCallOptions (options : Option CallOptions) : ResolvedCallOptions :=
  { mediaConstraints :=
      (options.bind CallOptions.mediaConstraints).getD { audio := true, video := false } }

/-- The distinct reasons `SIPService.makeCall` logs when it returns `null`. -/
inductive CallFailReason
  | noActiveAccount | notConnected | notRegistered | callThrew
deriving DecidableEq, Repr

/-- Model of `SIPService.makeCall`.  `callFn` stands for `this.userAgent.call`
(session handles are opaque `Nat`s; a thrown exception is `Except.error`).
Returns the session handle or `none`, together with the logged reason. -/
def facadeMakeCall (ua : Option Engine) (currentAccount : Option SIPAccount)
    (callFn : String → ResolvedCallOptions → Except String Nat)
    (target : String) (options : Option CallOptions) :
    Option Nat × Option CallFailReason :=
  match ua, currentAccount with
  | none, _ => (none, some CallFailReason.noActiveAccount)
  | some _, none => (none, some CallFailReason.noActiveAccount)
  | some e, some _ =>
    if !e.connected then (none, some CallFailReason.notConnected)
    else if !e.registered then (none, some CallFailReason.notRegistered)
    else
      match callFn target (resolveCallOptions options) with
      | Except.ok session => (some session, none)
      | Except.error _ => (none, some CallFailReason.callThrew)

/-- Call statuses of the `useCall` hook. -/
inductive CallStatus
  | idle | calling | ringing | connected | ended
deriving DecidableEq, Repr

/-- The hook's `callState` record. -/
structure CallState where
  status : CallStatus
  remoteNumber : Option String
  session : Option Nat
  duration : Nat
deriving DecidableEq, Repr

/-- The characters JavaScript `String.prototype.trim` strips (ECMAScript
WhiteSpace and LineTerminator code points, the common ones). -/
def isJsWhitespace (c : Char) : Bool :=
  c == ' ' || c == '\t' || c == '\n' || c == '\r' ||
  c == Char.ofNat 11 || c == Char.ofNat 12 ||
  c == Char.ofNat 160 || c == Char.ofNat 0xFEFF

/-- Model of `phoneNumber.trim()`: strip leading and trailing whitespace. -/
def jsTrim (s : String) : String :=
  String.mk (((s.data.dropWhile isJsWhitespace).reverse.dropWhile isJsWhitespace).reverse)

/-- The `useCall` hook's `makeCall(phoneNumber)`.  `facadeResult` stands for
what `sipService.makeCall(phoneNumber)` returns.  Output: the returned
boolean, the call-state record afterwards, and whether the facade was
invoked at all. -/
def hookMakeCall (cs : CallState) (facadeResult : Option Nat)
    (phoneNumber : String) : Bool × CallState × Bool :=
  if jsTrim phoneNumber = "" then (false, cs, false)
  else
    match facadeResult with
    | some session =>
      (true,
       { status := CallStatus.calling, remoteNumber := some phoneNumber
         session := some session, duration := 0 },
       true)
    | none => (false, cs, true)

/-! ### Concrete sample data for counterexamples and witnesses -/

/-- A sample stored account (WSS transport, status unregistered). -/
def accBase : SIPAccount :=
  { id := "acc-1", name := "A", server := "sip.example.com", userId := "100"
    password := "x", port := 8089, transport := Transport.WSS
    websocketPath := none, displayName := none, isActive := true
    registrationStatus := RegStatus.unregistered, createdAt := 0, updatedAt := 0 }

/-- The sample account after a failed registration attempt. -/
def accFailed : SIPAccount := { accBase with registrationStatus := RegStatus.failed }

/-- The sample account with its transport edited to UDP (same id). -/
def accUdp : SIPAccount := { accFailed with transport := Transport.UDP }

/-- A second account with a different id. -/
def accOther : SIPAccount := { accBase with id := "acc-2", name := "B" }

/-- An engine constructed for `accBase` that never got registered. -/
def engIdle : Engine :=
  { boundId := "acc-1", registered := false, connected := false, token := 0 }

/-- An engine that reports itself connected and registered. -/
def engReady : Engine :=
  { boundId := "acc-1", registered := true, connected := true, token := 0 }

/-- An idle call-state record. -/
def csIdle : CallState :=
  { status := CallStatus.idle, remoteNumber := none, session := none, duration := 0 }

/-- Storage holding just the sample account, which is also active. -/
def storOne : Storage :=
  { accounts := [accBase], activeId := some "acc-1", writes := 0 }

/-- A fresh facade: no engine, no current account. -/
def stFresh : FacadeState :=
  { userAgent := none, currentAccount := none, isRegistering := false
    storage := storOne, nextToken := 0 }

/-- The facade after a registration attempt for `accBase` failed: the engine
instance exists but reports unregistered, and the stored status is failed. -/
def stRetry : FacadeState :=
  { userAgent := some engIdle, currentAccount := some accFailed
    isRegistering := false
    storage := { accounts := [accFailed], activeId := some "acc-1", writes := 2 }
    nextToken := 1 }

/-- Trace for the registration-status counterexample, step 1:
`registerAccount(accBase)` from the fresh facade. -/
def stTrace1 : FacadeState := stepF stFresh (FacadeAction.actRegister accBase) 1

/-- Trace step 2: the engine reports `registered`. -/
def stTrace2 : FacadeState := stepF stTrace1 (FacadeAction.actEvent FacadeEvent.registeredEv) 2

/-- Trace step 3: the engine reports a transport error. -/
def stTrace3 : FacadeState := stepF stTrace2 (FacadeAction.actEvent FacadeEvent.transportErrorEv) 3

/-- A draft whose `registrationStatus` field is not the default. -/
def draftFailed : SIPAccountDraft :=
  { name := "A", server := "sip.example.com", userId := "100", password := "x"
    port := 8089, transport := Transport.WSS, websocketPath := none
    displayName := none, isActive := false
    registrationStatus := RegStatus.failed }

/-! ### Lemmas about the Account Store -/

theorem updateInList_not_found {targetId : String} {p : AccountPatch} {now : Nat}
    {l : List SIPAccount} (h : ∀ acc ∈ l, acc.id ≠ targetId) :
    updateInList targetId p now l = (none, l) := by
  induction l with
  | nil => rfl
  | cons a rest ih =>
    have ha : a.id ≠ targetId := h a (List.mem_cons_self a rest)
    have hrest : ∀ acc ∈ rest, acc.id ≠ targetId :=
      fun acc hm => h acc (List.mem_cons_of_mem a hm)
    simp only [updateInList, if_neg ha, ih hrest]

theorem applyPatch_id_of_none {acc : SIPAccount} {p : AccountPatch} {now : Nat}
    (hp : p.id = none) : (applyPatch acc p now).id = acc.id := by
  simp [applyPatch, hp]

theorem updateInList_map_id (targetId : String) (p : AccountPatch) (now : Nat)
    (hp : p.id = none) (l : List SIPAccount) :
    ((updateInList targetId p now l).2).map SIPAccount.id = l.map SIPAccount.id := by
  induction l with
  | nil => rfl
  | cons a rest ih =>
    by_cases ha : a.id = targetId
    · simp only [updateInList, if_pos ha, List.map_cons, applyPatch_id_of_none hp, ih]
    · simp only [updateInList, if_neg ha, List.map_cons, ih]

theorem updateInList_fst_some {targetId : String} {p : AccountPatch} {now : Nat}
    {l : List SIPAccount} {r : SIPAccount}
    (h : (updateInList targetId p now l).1 = some r) :
    ∃ acc ∈ l, acc.id = targetId ∧ r = applyPatch acc p now := by
  induction l with
  | nil => simp [updateInList] at h
  | cons a rest ih =>
    by_cases ha : a.id = targetId
    · refine ⟨a, List.mem_cons_self a rest, ha, ?_⟩
      simp only [updateInList, if_pos ha] at h
      exact (Option.some.inj h).symm
    · simp only [updateInList, if_neg ha] at h
      obtain ⟨acc, hmem, hid, hr⟩ := ih h
      exact ⟨acc, List.mem_cons_of_mem a hmem, hid, hr⟩

theorem updateInList_fst_none_all {targetId : String} {p : AccountPatch} {now : Nat}
    {l : List SIPAccount} (h : (updateInList targetId p now l).1 = none) :
    ∀ acc ∈ l, acc.id ≠ targetId := by
  induction l with
  | nil => intro acc hm; simp at hm
  | cons a rest ih =>
    by_cases ha : a.id = targetId
    · simp [updateInList, if_pos ha] at h
    · intro acc hm
      rcases List.mem_cons.mp hm with rfl | hm'
      · exact ha
      · simp only [updateInList, if_neg ha] at h
        exact ih h acc hm'

theorem statusInList_update_or (targetId : String) (v : RegStatus) (now : Nat)
    (i : String) (l : List SIPAccount) :
    statusInList (updateInList targetId (statusPatch v) now l).2 i = statusInList l i ∨
    statusInList (updateInList targetId (statusPatch v) now l).2 i = some v := by
  induction l with
  | nil => exact Or.inl rfl
  | cons a rest ih =>
    by_cases ha : a.id = targetId
    · simp only [updateInList, if_pos ha, statusInList]
      rw [applyPatch_id_of_none (p := statusPatch v) rfl]
      by_cases hi : a.id = i
      · simp only [if_pos hi]
        right
        simp [applyPatch, statusPatch]
      · simp only [if_neg hi]
        exact Or.inl trivial
    · simp only [updateInList, if_neg ha, statusInList]
      by_cases hi : a.id = i
      · simp only [if_pos hi]
        exact Or.inl trivial
      · simpa only [if_neg hi] using ih

theorem statusInList_update_present (targetId : String) (v : RegStatus) (now : Nat)
    {l : List SIPAccount} (h : ∃ acc ∈ l, acc.id = targetId) :
    statusInList (updateInList targetId (statusPatch v) now l).2 targetId = some v := by
  induction l with
  | nil => simp at h
  | cons a rest ih =>
    by_cases ha : a.id = targetId
    · simp only [updateInList, if_pos ha, statusInList]
      rw [applyPatch_id_of_none (p := statusPatch v) rfl]
      simp only [if_pos ha]
      simp [applyPatch, statusPatch]
    · obtain ⟨acc, hmem, hid⟩ := h
      rcases List.mem_cons.mp hmem with rfl | hmem'
      · exact absurd hid ha
      · simp only [updateInList, if_neg ha, statusInList]
        exact ih ⟨acc, hmem', hid⟩

theorem statusOf_updateStatus_or (st : Storage) (targetId : String) (v : RegStatus)
    (now : Nat) (i : String) :
    statusOf (updateSIPAccount st targetId (statusPatch v) now).2 i = statusOf st i ∨
    statusOf (updateSIPAccount st targetId (statusPatch v) now).2 i = some v := by
  unfold updateSIPAccount
  rcases hu : updateInList targetId (statusPatch v) now st.accounts with ⟨r, l'⟩
  cases r with
  | none => exact Or.inl rfl
  | some u =>
    have h := statusInList_update_or targetId v now i st.accounts
    rw [hu] at h
    simpa [statusOf, saveSIPAccounts] using h

theorem statusOf_updateStatus_present (st : Storage) (targetId : String) (v : RegStatus)
    (now : Nat) (h : ∃ acc ∈ st.accounts, acc.id = targetId) :
    statusOf (updateSIPAccount st targetId (statusPatch v) now).2 targetId = some v := by
  unfold updateSIPAccount
  rcases hu : updateInList targetId (statusPatch v) now st.accounts with ⟨r, l'⟩
  have hs := statusInList_update_present targetId v now h
  rw [hu] at hs
  cases r with
  | none =>
    exfalso
    obtain ⟨acc, hmem, hid⟩ := h
    have hfst : (updateInList targetId (statusPatch v) now st.accounts).1 = none := by
      rw [hu]
    exact updateInList_fst_none_all hfst acc hmem hid
  | some u =>
    simpa [statusOf, saveSIPAccounts] using hs

theorem updateSIPAccount_not_found_eq (st : Storage) (targetId : String)
    (p : AccountPatch) (now : Nat) (h : ∀ acc ∈ st.accounts, acc.id ≠ targetId) :
    updateSIPAccount st targetId p now = (none, st) := by
  unfold updateSIPAccount
  rw [updateInList_not_found h]

/-! ### Claim theorems: Account Store -/

/-- Claim C7: for every id not present in the stored account collection and
every partial-fields argument, the store's update operation returns a
"not found" null result rather than raising, no stored record is mutated and
nothing is written to the persistence substrate (the whole storage state,
write counter included, is unchanged). -/
theorem updateSIPAccount_not_found (st : Storage) (targetId : String)
    (p : AccountPatch) (now : Nat) (h : ∀ acc ∈ st.accounts, acc.id ≠ targetId) :
    (updateSIPAccount st targetId p now).1 = none ∧
    (updateSIPAccount st targetId p now).2 = st := by
  rw [updateSIPAccount_not_found_eq st targetId p now h]
  exact ⟨rfl, rfl⟩

/-- Witness for C7 at a concrete store and absent id. -/
theorem updateSIPAccount_not_found_witness :
    (∀ acc ∈ storOne.accounts, acc.id ≠ "zzz") ∧
    (updateSIPAccount storOne "zzz" (statusPatch RegStatus.failed) 9).1 = none ∧
    (updateSIPAccount storOne "zzz" (statusPatch RegStatus.failed) 9).2 = storOne :=
  ⟨by decide, updateSIPAccount_not_found storOne "zzz" (statusPatch RegStatus.failed) 9 (by decide)⟩

/-- Claim C8: for every stored account id, delete removes the matching record
and returns that a record was removed; the active-account pointer is cleared
exactly when it referenced the deleted id, and is untouched otherwise. -/
theorem deleteSIPAccount_found (st : Storage) (targetId : String)
    (h : ∃ acc ∈ st.accounts, acc.id = targetId) :
    (deleteSIPAccount st targetId).1 = true ∧
    (deleteSIPAccount st targetId).2.accounts
      = st.accounts.filter (fun acc => acc.id ≠ targetId) ∧
    (deleteSIPAccount st targetId).2.activeId
      = (if st.activeId = some targetId then none else st.activeId) := by
  have hlt : (st.accounts.filter (fun acc => acc.id ≠ targetId)).length
      < st.accounts.length := by
    apply List.length_filter_lt_length_iff_exists.mpr
    obtain ⟨acc, hmem, hid⟩ := h
    exact ⟨acc, hmem, by simp [hid]⟩
  have hne : ¬ ((st.accounts.filter (fun acc => acc.id ≠ targetId)).length
      = st.accounts.length) := Nat.ne_of_lt hlt
  simp only [deleteSIPAccount, if_neg hne, getActiveAccountId, saveSIPAccounts,
    setActiveAccountId]
  by_cases hact : st.activeId = some targetId
  · simp only [if_pos hact]
    refine ⟨?_, ?_, ?_⟩ <;> trivial
  · simp only [if_neg hact]
    refine ⟨?_, ?_, ?_⟩ <;> trivial

/-- Witness for C8 at a concrete store where the deleted id is the active one. -/
theorem deleteSIPAccount_found_witness :
    (∃ acc ∈ storOne.accounts, acc.id = "acc-1") ∧
    (deleteSIPAccount storOne "acc-1").1 = true ∧
    (deleteSIPAccount storOne "acc-1").2.accounts
      = storOne.accounts.filter (fun acc => acc.id ≠ "acc-1") ∧
    (deleteSIPAccount storOne "acc-1").2.activeId
      = (if storOne.activeId = some "acc-1" then none else storOne.activeId) :=
  ⟨by decide, deleteSIPAccount_found storOne "acc-1" (by decide)⟩

/-- Claim C2 (amended): `addSIPAccount` itself assigns the generated id and
both timestamps and appends/persists the new record, but the registration
status — like every other draft field — is spread through from the draft, not
reset to the default "unregistered" (the in-repo callers are the ones that
pass "unregistered"). -/
theorem addSIPAccount_fields (st : Storage) (draft : SIPAccountDraft)
    (now : Nat) (rand : String) :
    (addSIPAccount st draft now rand).1.id = generateId now rand ∧
    (addSIPAccount st draft now rand).1.createdAt = now ∧
    (addSIPAccount st draft now rand).1.updatedAt = now ∧
    (addSIPAccount st draft now rand).1.registrationStatus = draft.registrationStatus ∧
    (addSIPAccount st draft now rand).2.accounts
      = st.accounts ++ [(addSIPAccount st draft now rand).1] :=
  ⟨rfl, rfl, rfl, rfl, rfl⟩

/-- Counterexample to claim C2 as stated: a draft whose status field is
"failed" is added (and returned) with status "failed", not with the claimed
default "unregistered". -/
theorem addSIPAccount_draft_status_counterexample :
    (addSIPAccount { accounts := [], activeId := none, writes := 0 }
      draftFailed 5 "r").1.registrationStatus ≠ RegStatus.unregistered := by
  decide

theorem updateSIPAccount_map_id (st : Storage) (targetId : String)
    {p : AccountPatch} (hp : p.id = none) (now : Nat) :
    (updateSIPAccount st targetId p now).2.accounts.map SIPAccount.id
      = st.accounts.map SIPAccount.id := by
  unfold updateSIPAccount
  rcases hu : updateInList targetId p now st.accounts with ⟨r, l'⟩
  cases r with
  | none => rfl
  | some u =>
    have hmap := updateInList_map_id targetId p now hp st.accounts
    rw [hu] at hmap
    simpa [saveSIPAccounts] using hmap

/-- Claim C4 (amended): the store's update operation preserves every stored
record's id — and the returned record carries the looked-up id — provided the
partial update itself contains no `id` field (as every in-repo caller's does);
a partial that does contain `id` overwrites it. -/
theorem updateSIPAccount_id_immutable (st : Storage) (targetId : String)
    (p : AccountPatch) (now : Nat) (hp : p.id = none) :
    (updateSIPAccount st targetId p now).2.accounts.map SIPAccount.id
      = st.accounts.map SIPAccount.id ∧
    (∀ r, (updateSIPAccount st targetId p now).1 = some r → r.id = targetId) := by
  constructor
  · exact updateSIPAccount_map_id st targetId hp now
  · intro r hr
    unfold updateSIPAccount at hr
    rcases hu : updateInList targetId p now st.accounts with ⟨r0, l'⟩
    rw [hu] at hr
    cases r0 with
    | none => simp at hr
    | some u =>
      simp only at hr
      have hfst : (updateInList targetId p now st.accounts).1 = some r := by
        rw [hu]
        simpa using hr
      obtain ⟨acc, _, hid, heq⟩ := updateInList_fst_some hfst
      rw [heq, applyPatch_id_of_none hp, hid]

/-- Witness for C4 (amended) at a concrete store and id-free patch. -/
theorem updateSIPAccount_id_immutable_witness :
    (statusPatch RegStatus.failed).id = none ∧
    (updateSIPAccount storOne "acc-1" (statusPatch RegStatus.failed) 7).2.accounts.map
      SIPAccount.id = storOne.accounts.map SIPAccount.id :=
  ⟨rfl, (updateSIPAccount_id_immutable storOne "acc-1"
    (statusPatch RegStatus.failed) 7 rfl).1⟩

/-- Counterexample to claim C4 as stated: an update whose partial-fields
argument contains an `id` field changes the stored record's id, so the id is
not immutable under arbitrary partial updates. -/
theorem updateSIPAccount_id_counterexample :
    (updateSIPAccount storOne "acc-1" { id := some "acc-X" } 7).2.accounts.map
      SIPAccount.id = ["acc-X"] ∧ ("acc-X" : String) ≠ "acc-1" := by
  decide

/-! ### Lemmas about the facade -/

theorem registerTeardown_storage (st : FacadeState) (a : SIPAccount) :
    ((registerTeardown st a).1).storage = st.storage := by
  unfold registerTeardown
  cases hc : st.currentAccount with
  | none => rfl
  | some c =>
    dsimp only
    by_cases hid : c.id ≠ a.id
    · rw [if_pos hid]
      unfold disconnectF
      cases hu : st.userAgent <;> rfl
    · rw [if_neg hid]

theorem registerTeardown_same_id {st : FacadeState} {a : SIPAccount} {c : SIPAccount}
    (hc : st.currentAccount = some c) (hid : c.id = a.id) :
    registerTeardown st a = (st, []) := by
  unfold registerTeardown
  rw [hc]
  dsimp only
  rw [if_neg (not_not_intro hid)]

theorem registerTeardown_stop {st : FacadeState} {a : SIPAccount}
    (h : EngineCmd.stop ∈ (registerTeardown st a).2) :
    ∃ c, st.currentAccount = some c ∧ c.id ≠ a.id := by
  unfold registerTeardown at h
  cases hc : st.currentAccount with
  | none => rw [hc] at h; simp at h
  | some c =>
    rw [hc] at h
    dsimp only at h
    by_cases hid : c.id ≠ a.id
    · exact ⟨c, rfl, hid⟩
    · rw [if_neg hid] at h
      simp at h

theorem registerTeardown_cmds (st : FacadeState) (a : SIPAccount) :
    (registerTeardown st a).2 = [] ∨ (registerTeardown st a).2 = [EngineCmd.stop] := by
  unfold registerTeardown
  cases hc : st.currentAccount with
  | none => exact Or.inl rfl
  | some c =>
    dsimp only
    by_cases hid : c.id ≠ a.id
    · rw [if_pos hid]
      unfold disconnectF
      cases hu : st.userAgent with
      | none => exact Or.inl rfl
      | some e => exact Or.inr rfl
    · rw [if_neg hid]
      exact Or.inl rfl

theorem currentIdIs_eq_true {st : FacadeState} {i : String}
    (h : currentIdIs st i = true) : ∃ c, st.currentAccount = some c ∧ c.id = i := by
  unfold currentIdIs at h
  cases hc : st.currentAccount with
  | none => rw [hc] at h; simp at h
  | some c =>
    rw [hc] at h
    dsimp only at h
    exact ⟨c, rfl, by simpa using h⟩

theorem buildWebSocketUrl_error {a : SIPAccount}
    (ht : a.transport ≠ Transport.WS ∧ a.transport ≠ Transport.WSS) :
    buildWebSocketUrl a = Except.error ("Invalid transport for WebSocket: "
      ++ transportLabel a.transport ++ ". Use WS or WSS.") := by
  unfold buildWebSocketUrl
  rw [if_pos ht]

/-! ### Claim theorems: facade registration -/

/-- Claim C6: whenever the facade's in-flight-registration flag is set, any
further registerAccount call returns false immediately and changes nothing:
the facade state (engine instance, current account, stored statuses) is
untouched and no engine command is issued. -/
theorem registerAccount_inflight_noop (st : FacadeState) (a : SIPAccount)
    (now : Nat) (h : st.isRegistering = true) :
    registerAccount st a now = { returned := false, state := st, cmds := [] } := by
  simp [registerAccount, h]

/-- Witness for C6 at a concrete in-flight facade state. -/
theorem registerAccount_inflight_noop_witness :
    ({ stRetry with isRegistering := true } : FacadeState).isRegistering = true ∧
    registerAccount { stRetry with isRegistering := true } accBase 5
      = { returned := false, state := { stRetry with isRegistering := true }
          cmds := [] } :=
  ⟨rfl, registerAccount_inflight_noop { stRetry with isRegistering := true } accBase 5 rfl⟩

/-- Claim C10: registerAccount never stops or discards the existing engine
when the current account's id equals the requested account's id (in
particular after a failed registration, when the engine does not report
itself registered); conversely, any engine stop it performs happens only when
the current account's id differs from the requested one. -/
theorem registerAccount_teardown_only_different (st : FacadeState)
    (a : SIPAccount) (now : Nat) :
    (∀ c, st.currentAccount = some c → c.id = a.id →
      EngineCmd.stop ∉ (registerAccount st a now).cmds) ∧
    (EngineCmd.stop ∈ (registerAccount st a now).cmds →
      ∃ c, st.currentAccount = some c ∧ c.id ≠ a.id) := by
  constructor
  · intro c hc hid
    have hrt := registerTeardown_same_id hc hid
    simp only [registerAccount]
    by_cases h1 : st.isRegistering = true
    · simp [h1]
    · rw [if_neg h1]
      by_cases h2 : (currentIdIs st a.id && engineIsRegistered st) = true
      · simp [h2]
      · rw [if_neg h2]
        rcases hb : buildWebSocketUrl a with e | u
        · simp [hb, hrt]
        · simp [hb, hrt]
  · intro hmem
    simp only [registerAccount] at hmem
    by_cases h1 : st.isRegistering = true
    · simp [h1] at hmem
    · rw [if_neg h1] at hmem
      by_cases h2 : (currentIdIs st a.id && engineIsRegistered st) = true
      · simp [h2] at hmem
      · rw [if_neg h2] at hmem
        rcases hb : buildWebSocketUrl a with e | u
        · simp only [hb] at hmem
          exact registerTeardown_stop hmem
        · simp only [hb] at hmem
          simp only [List.mem_append] at hmem
          rcases hmem with hmem | hmem
          · exact registerTeardown_stop hmem
          · simp at hmem

/-- Witness for C10: the same-id conjunct at the concrete retry state, and
the only-different-id conjunct at a concrete different-account registration
that does issue a stop. -/
theorem registerAccount_teardown_only_different_witness :
    EngineCmd.stop ∉ (registerAccount stRetry accUdp 10).cmds ∧
    (∃ c, stRetry.currentAccount = some c ∧ c.id ≠ accOther.id) :=
  ⟨(registerAccount_teardown_only_different stRetry accUdp 10).1 accFailed rfl rfl,
   (registerAccount_teardown_only_different stRetry accOther 10).2 (by decide)⟩

/-- Claim C3 (amended): for every account whose transport kind is not in the
WebSocket family, the configuration error is raised by the URL builder before
any engine construction, but registerAccount catches it, marks the account
failed and returns false to its caller (it does not re-raise); no new engine
instance is constructed, while an engine left over from a previous
registration of the same account id remains in place. -/
theorem registerAccount_bad_transport (st : FacadeState) (a : SIPAccount) (now : Nat)
    (ht : a.transport ≠ Transport.WS ∧ a.transport ≠ Transport.WSS)
    (hflag : st.isRegistering = false)
    (hskip : (currentIdIs st a.id && engineIsRegistered st) = false) :
    (registerAccount st a now).returned = false ∧
    EngineCmd.construct ∉ (registerAccount st a now).cmds ∧
    (currentIdIs st a.id = true →
      (registerAccount st a now).state.userAgent = st.userAgent) ∧
    (a.id ∈ st.storage.accounts.map SIPAccount.id →
      statusOf (registerAccount st a now).state.storage a.id
        = some RegStatus.failed) := by
  have hb := buildWebSocketUrl_error ht
  have h1 : ¬ (st.isRegistering = true) := by simp [hflag]
  have h2 : ¬ ((currentIdIs st a.id && engineIsRegistered st) = true) := by simp [hskip]
  simp only [registerAccount, if_neg h1, if_neg h2, hb]
  refine ⟨?_, ?_, ?_, ?_⟩
  · trivial
  · rcases registerTeardown_cmds st a with hcs | hcs <;> simp [hcs]
  · intro hcur
    obtain ⟨c, hc, hid⟩ := currentIdIs_eq_true hcur
    have hrt := registerTeardown_same_id hc hid
    show (updateAccountStatusF (updateAccountStatusF (registerTeardown st a).1
      a.id RegStatus.connecting now) a.id RegStatus.failed now).userAgent = st.userAgent
    rw [hrt]
    rfl
  · intro hpre
    have hst1 : ((registerTeardown st a).1).storage = st.storage :=
      registerTeardown_storage st a
    show statusOf (updateAccountStatusF (updateAccountStatusF (registerTeardown st a).1
      a.id RegStatus.connecting now) a.id RegStatus.failed now).storage a.id
      = some RegStatus.failed
    apply statusOf_updateStatus_present
    have hmap : ((updateAccountStatusF (registerTeardown st a).1
        a.id RegStatus.connecting now).storage).accounts.map SIPAccount.id
        = st.storage.accounts.map SIPAccount.id := by
      show ((updateSIPAccount ((registerTeardown st a).1).storage a.id
        (statusPatch RegStatus.connecting) now).2).accounts.map SIPAccount.id
        = st.storage.accounts.map SIPAccount.id
      rw [updateSIPAccount_map_id _ _ rfl, hst1]
    have : a.id ∈ ((updateAccountStatusF (registerTeardown st a).1
        a.id RegStatus.connecting now).storage).accounts.map SIPAccount.id := by
      rw [hmap]; exact hpre
    simpa [List.mem_map] using this

/-- Witness for C3 (amended) at the concrete retry state with a UDP account. -/
theorem registerAccount_bad_transport_witness :
    (registerAccount stRetry accUdp 10).returned = false ∧
    EngineCmd.construct ∉ (registerAccount stRetry accUdp 10).cmds ∧
    statusOf (registerAccount stRetry accUdp 10).state.storage accUdp.id
      = some RegStatus.failed := by
  have h := registerAccount_bad_transport stRetry accUdp 10 (by decide) rfl (by decide)
  exact ⟨h.1, h.2.1, h.2.2.2 (by decide)⟩

/-- Counterexample to claim C3 as stated: retrying the same account id with
its transport edited to UDP returns false — the configuration error is
caught inside registerAccount, not raised synchronously to its caller — and
the engine instance from the previous attempt still exists afterwards. -/
theorem registerAccount_bad_transport_counterexample :
    (registerAccount stRetry accUdp 10).returned = false ∧
    (registerAccount stRetry accUdp 10).state.userAgent = some engIdle := by
  constructor <;> rfl

/-! ### Claim theorems: makeCall paths -/

/-- Claim C5: the facade's makeCall returns a null result, with a logged
reason distinguishing no-active-account / not-connected / not-registered,
whenever no engine instance exists, no current account is set, the engine
does not report itself transport-connected, or does not report itself
registered; when the preconditions all hold it delegates to the engine's call
primitive with audio-only default media constraints that caller-supplied
overrides replace, returning the opaque session handle; and an engine throw
during initiation yields a null result rather than a propagated exception. -/
theorem facadeMakeCall_spec (ua : Option Engine) (cur : Option SIPAccount)
    (callFn : String → ResolvedCallOptions → Except String Nat)
    (target : String) (options : Option CallOptions) :
    (ua = none →
      facadeMakeCall ua cur callFn target options
        = (none, some CallFailReason.noActiveAccount)) ∧
    (cur = none →
      facadeMakeCall ua cur callFn target options
        = (none, some CallFailReason.noActiveAccount)) ∧
    (∀ e c, ua = some e → cur = some c → e.connected = false →
      facadeMakeCall ua cur callFn target options
        = (none, some CallFailReason.notConnected)) ∧
    (∀ e c, ua = some e → cur = some c → e.connected = true → e.registered = false →
      facadeMakeCall ua cur callFn target options
        = (none, some CallFailReason.notRegistered)) ∧
    (∀ e c s, ua = some e → cur = some c → e.connected = true → e.registered = true →
      callFn target (resolveCallOptions options) = Except.ok s →
      facadeMakeCall ua cur callFn target options = (some s, none)) ∧
    (∀ e c msg, ua = some e → cur = some c → e.connected = true → e.registered = true →
      callFn target (resolveCallOptions options) = Except.error msg →
      facadeMakeCall ua cur callFn target options
        = (none, some CallFailReason.callThrew)) ∧
    resolveCallOptions none
      = { mediaConstraints := { audio := true, video := false } } ∧
    (∀ mc, resolveCallOptions (some { mediaConstraints := some mc })
      = { mediaConstraints := mc }) := by
  refine ⟨?_, ?_, ?_, ?_, ?_, ?_, rfl, fun mc => rfl⟩
  · intro h
    subst h
    rfl
  · intro h
    subst h
    cases ua <;> rfl
  · intro e c hua hcur hconn
    subst hua
    subst hcur
    simp [facadeMakeCall, hconn]
  · intro e c hua hcur hconn hreg
    subst hua
    subst hcur
    simp [facadeMakeCall, hconn, hreg]
  · intro e c s hua hcur hconn hreg hcall
    subst hua
    subst hcur
    simp [facadeMakeCall, hconn, hreg, hcall]
  · intro e c msg hua hcur hconn hreg hcall
    subst hua
    subst hcur
    simp [facadeMakeCall, hconn, hreg, hcall]

/-- Witness for C5: a successful delegation and a no-engine refusal at
concrete inputs. -/
theorem facadeMakeCall_spec_witness :
    facadeMakeCall (some engReady) (some accBase) (fun _ _ => Except.ok 7) "200" none
      = (some 7, none) ∧
    facadeMakeCall none (some accBase) (fun _ _ => Except.ok 7) "200" none
      = (none, some CallFailReason.noActiveAccount) :=
  ⟨(facadeMakeCall_spec (some engReady) (some accBase) (fun _ _ => Except.ok 7)
      "200" none).2.2.2.2.1 engReady accBase 7 rfl rfl rfl rfl rfl,
   (facadeMakeCall_spec none (some accBase) (fun _ _ => Except.ok 7)
      "200" none).1 rfl⟩

/-- Claim C9: the call controller's makeCall on an empty or whitespace-only
input returns false and produces no side effect: the call-state record is
unchanged and the facade is never invoked. -/
theorem hookMakeCall_blank_noop (cs : CallState) (facadeResult : Option Nat)
    (s : String) (h : ∀ c ∈ s.data, isJsWhitespace c = true) :
    hookMakeCall cs facadeResult s = (false, cs, false) := by
  have h1 : s.data.dropWhile isJsWhitespace = [] := List.dropWhile_eq_nil_iff.mpr h
  have htrim : jsTrim s = "" := by
    unfold jsTrim
    rw [h1]
    rfl
  simp [hookMakeCall, htrim]

/-- Witness for C9 at the all-blank input. -/
theorem hookMakeCall_blank_noop_witness :
    hookMakeCall csIdle (some 3) "   " = (false, csIdle, false) :=
  hookMakeCall_blank_noop csIdle (some 3) "   " (by decide)

/-! ### Claim theorems: registration-status transitions -/

theorem statusOf_updateAccountStatusF_or (st : FacadeState) (j : String)
    (v : RegStatus) (now : Nat) (i : String) :
    statusOf (updateAccountStatusF st j v now).storage i = statusOf st.storage i ∨
    statusOf (updateAccountStatusF st j v now).storage i = some v :=
  statusOf_updateStatus_or st.storage j v now i

/-- Claim C1 (amended): along any single facade action, each account's
recorded registration status either stays unchanged or moves to a status
determined by the action alone, from whatever previous status: connecting or
failed for registerAccount, unregistered for unregister and for the
unregistered/disconnected events, registered for the registered event, and
failed for the registration-failure and transport-error events.  The
spec's edge set is thus violated: registered→failed (transport error while
registered) and failed→connecting (user retry) are produced. -/
theorem stepF_status_targets (st : FacadeState) (act : FacadeAction) (now : Nat)
    (i : String) :
    statusOf (stepF st act now).storage i = statusOf st.storage i ∨
    ∃ t ∈ stepTargets act, statusOf (stepF st act now).storage i = some t := by
  cases act with
  | actRegister a =>
    simp only [stepF, registerAccount]
    by_cases h1 : st.isRegistering = true
    · left
      simp [h1]
    · rw [if_neg h1]
      by_cases h2 : (currentIdIs st a.id && engineIsRegistered st) = true
      · left
        simp [h2]
      · rw [if_neg h2]
        have hst1 : ((registerTeardown st a).1).storage = st.storage :=
          registerTeardown_storage st a
        rcases hb : buildWebSocketUrl a with e | u
        · dsimp only
          rcases statusOf_updateAccountStatusF_or
              (updateAccountStatusF (registerTeardown st a).1 a.id
                RegStatus.connecting now) a.id RegStatus.failed now i with h3 | h3
          · rcases statusOf_updateAccountStatusF_or ((registerTeardown st a).1)
                a.id RegStatus.connecting now i with h4 | h4
            · left
              rw [h3, h4, hst1]
            · right
              exact ⟨RegStatus.connecting, by simp [stepTargets], by rw [h3, h4]⟩
          · right
            exact ⟨RegStatus.failed, by simp [stepTargets], h3⟩
        · dsimp only
          rcases statusOf_updateAccountStatusF_or ((registerTeardown st a).1)
              a.id RegStatus.connecting now i with h4 | h4
          · left
            rw [h4, hst1]
          · right
            exact ⟨RegStatus.connecting, by simp [stepTargets], h4⟩
  | actUnregister =>
    simp only [stepF, unregisterF]
    cases hu : st.userAgent with
    | none => left; rfl
    | some e =>
      cases hc : st.currentAccount with
      | none => left; rfl
      | some c =>
        dsimp only
        rcases statusOf_updateAccountStatusF_or st c.id RegStatus.unregistered
            now i with h | h
        · left
          exact h
        · right
          exact ⟨RegStatus.unregistered, by simp [stepTargets], h⟩
  | actDisconnect =>
    left
    simp only [stepF, disconnectF]
    cases hu : st.userAgent <;> rfl
  | actEvent ev =>
    simp only [stepF, handleEvent]
    cases hu : st.userAgent with
    | none => left; rfl
    | some e =>
      dsimp only
      cases ev with
      | registeredEv =>
        rcases statusOf_updateAccountStatusF_or
            { st with userAgent := some { e with registered := true } }
            e.boundId RegStatus.registered now i with h | h
        · left; exact h
        · right; exact ⟨RegStatus.registered, by simp [stepTargets], h⟩
      | unregisteredEv =>
        rcases statusOf_updateAccountStatusF_or
            { st with userAgent := some { e with registered := false } }
            e.boundId RegStatus.unregistered now i with h | h
        · left; exact h
        · right; exact ⟨RegStatus.unregistered, by simp [stepTargets], h⟩
      | registrationFailedEv =>
        rcases statusOf_updateAccountStatusF_or
            { st with userAgent := some { e with registered := false } }
            e.boundId RegStatus.failed now i with h | h
        · left; exact h
        · right; exact ⟨RegStatus.failed, by simp [stepTargets], h⟩
      | connectedEv => left; rfl
      | disconnectedEv =>
        dsimp only
        cases hc : st.currentAccount with
        | none => left; rfl
        | some c =>
          dsimp only
          rcases statusOf_updateAccountStatusF_or
              { st with userAgent := some { e with connected := false, registered := false } }
              c.id RegStatus.unregistered now i with h | h
          · left; exact h
          · right; exact ⟨RegStatus.unregistered, by simp [stepTargets], h⟩
      | transportErrorEv =>
        cases hc : st.currentAccount with
        | none => left; rfl
        | some c =>
          dsimp only
          rcases statusOf_updateAccountStatusF_or st c.id RegStatus.failed
              now i with h | h
          · left; exact h
          · right; exact ⟨RegStatus.failed, by simp [stepTargets], h⟩

/-- Counterexample to claim C1 as stated: after a successful registration
(unregistered→connecting→registered), a transport-error event moves the
account straight from "registered" to "failed" — an edge the claimed
transition set does not contain. -/
theorem registration_edge_counterexample :
    statusOf stTrace2.storage "acc-1" = some RegStatus.registered ∧
    statusOf stTrace3.storage "acc-1" = some RegStatus.failed ∧
    ¬ specAllowedEdge RegStatus.registered RegStatus.failed := by
  refine ⟨by decide, by decide, by decide⟩

end Softphone
